import Mathlib

/-!
Verification development for the pdf-watermarking repository
(src/pdf-watermark.py and src/script.py).

The Python code is shallowly embedded: pure helpers become Lean functions,
the two `add_watermark` procedures become functions producing the trace of
backend (PyMuPDF / filesystem) effects they request together with an
optional error, and the PIL image library - an external collaborator - is
modelled initially: every PIL call the code makes becomes a constructor of
an image syntax tree `PImage` that records the exact arguments of the call,
with width / height / mode computed as PIL documents them.
Page-space quantities (Python floats) are modelled as rationals.
-/

namespace PdfWatermarking

/-- Python `int(x)` on a rational: truncation toward zero
(`Int.tdiv` truncates toward zero, and `x.den` is positive). -/
def pyInt (x : ℚ) : ℤ :=
  Int.tdiv x.num (x.den : ℤ)

/-- An ASCII hexadecimal digit (0-9, a-f, A-F). -/
def isHexDigit (c : Char) : Bool :=
  (('0' ≤ c && c ≤ '9') || ('a' ≤ c && c ≤ 'f') || ('A' ≤ c && c ≤ 'F'))

/-- Value of an ASCII hexadecimal digit. -/
def hexDigitVal (c : Char) : ℕ :=
  if '0' ≤ c && c ≤ '9' then c.toNat - '0'.toNat
  else if 'a' ≤ c && c ≤ 'f' then c.toNat - 'a'.toNat + 10
  else c.toNat - 'A'.toNat + 10

/-- The ASCII whitespace characters Python's `int(str, base)` strips from
both ends of its argument before parsing. -/
def isPySpace (c : Char) : Bool :=
  c == ' ' || c == '\t' || c == '\n' || c == '\r' || c == '\x0b' || c == '\x0c'

/-- Both-ends whitespace strip, as Python `int(str, base)` performs. -/
def stripPy (s : List Char) : List Char :=
  ((s.dropWhile isPySpace).reverse.dropWhile isPySpace).reverse

/-- Continuation of Python's base-16 digit parsing: after at least one
digit has been read into `acc`, a single underscore may separate digits
(PEP 515); anything else ends in failure. -/
def hexTailGo (acc : ℕ) : List Char → Option ℕ
  | [] => some acc
  | c :: rest =>
    if c == '_' then
      match rest with
      | [] => none
      | d :: rest2 =>
        if isHexDigit d then hexTailGo (16 * acc + hexDigitVal d) rest2 else none
    else if isHexDigit c then hexTailGo (16 * acc + hexDigitVal c) rest
    else none

/-- Python base-16 digit-run parsing: at least one hexadecimal digit,
with single underscores allowed between digits. -/
def hexDigitsParse : List Char → Option ℕ
  | [] => none
  | c :: rest => if isHexDigit c then hexTailGo (hexDigitVal c) rest else none

/-- The part of Python `int(str, 16)` after whitespace and sign handling:
an optional `0x` / `0X` base marker (which may be followed by one
underscore) and then a run of hexadecimal digits. -/
def pyIntHexCore (s : List Char) : Option ℕ :=
  match s with
  | c1 :: c2 :: rest =>
    if c1 == '0' && (c2 == 'x' || c2 == 'X') then
      match rest with
      | [] => none
      | c3 :: rest2 =>
        if c3 == '_' then hexDigitsParse rest2 else hexDigitsParse (c3 :: rest2)
    else hexDigitsParse (c1 :: c2 :: rest)
  | _ => hexDigitsParse s

/-- Python `int(str, 16)`: strips whitespace at both ends, accepts an
optional single leading sign, an optional `0x` marker, then hexadecimal
digits. `none` models the `ValueError` Python raises otherwise. -/
def pyIntHex (s : List Char) : Option ℤ :=
  match stripPy s with
  | [] => none
  | c :: rest =>
    if c == '+' then (pyIntHexCore rest).map (fun n => (n : ℤ))
    else if c == '-' then (pyIntHexCore rest).map (fun n => -(n : ℤ))
    else (pyIntHexCore (c :: rest)).map (fun n => (n : ℤ))

/-- The two ways `hex_to_rgb` can raise `ValueError`: its own explicit
length check (the `Invalid HEX color. Use format #RRGGBB.` message, the
spec's `InvalidColorFormat`), or a failing `int(_, 16)` call. -/
inductive ColorErr : Type where
  | invalidColorFormat : ColorErr
  | intValueError : ColorErr
  deriving DecidableEq

/-- Python `str.lstrip("#")`: removes every leading `#`. -/
def lstripHash (s : List Char) : List Char :=
  s.dropWhile (fun c => c == '#')

/-- Function `hex_to_rgb` of src/pdf-watermark.py lines 9-14: strip leading `#`
characters, require length six, decode the three 2-character slices with
Python `int(_, 16)`. -/
def hex_to_rgb (s : List Char) : Except ColorErr (ℤ × ℤ × ℤ) :=
  let h := lstripHash s
  if h.length ≠ 6 then Except.error ColorErr.invalidColorFormat
  else
    match pyIntHex (h.take 2), pyIntHex ((h.drop 2).take 2), pyIntHex ((h.drop 4).take 2) with
    | some r, some g, some b => Except.ok (r, g, b)
    | _, _, _ => Except.error ColorErr.intValueError

/-- An RGBA color, as the 4-tuples the Python code passes to PIL. -/
abbrev RGBA := ℤ × ℤ × ℤ × ℤ

/-- The PIL calls the two scripts make, recorded initially: each
constructor is one PIL operation with the exact arguments the Python code
passes. PIL itself is an external collaborator, so pixel contents stay
uninterpreted; width, height and mode are computed below as PIL documents
them. -/
inductive PImage : Type where
  /-- PIL `Image.new(mode, (w, h), fill)`. -/
  | new (mode : String) (width height : ℤ) (fill : RGBA) : PImage
  /-- PIL `Image.open(path).convert("RGBA")`: a decoded source raster. -/
  | opened (width height : ℤ) : PImage
  /-- the image after `img.thumbnail((max_w, max_h))`: PIL shrinks in
  place to the recorded new size (aspect-preserving fit, a black-box PIL
  computation supplied by the `Backend`). -/
  | thumbnailed (src : PImage) (width height : ℤ) : PImage
  /-- PIL `img.putalpha(ImageEnhance.Brightness(img.split()[3]).enhance(o))`:
  the alpha channel scaled by `o`; the size is unchanged. -/
  | alphaScaled (src : PImage) (opacity : ℚ) : PImage
  /-- PIL `base.paste(im, (x, y), mask)`: the size is that of `base`. -/
  | pasted (base : PImage) (im : PImage) (x y : ℤ) (mask : PImage) : PImage
  /-- PIL `ImageDraw.Draw(base).text((x, y), text, font, fill)`: drawing on a
  canvas never changes its size. -/
  | texted (base : PImage) (x y : ℚ) (fill : RGBA) : PImage
  deriving DecidableEq

/-- Width of a PIL image (`img.width`, `img.size[0]`). -/
def PImage.width : PImage → ℤ
  | .new _ w _ _ => w
  | .opened w _ => w
  | .thumbnailed _ w _ => w
  | .alphaScaled s _ => s.width
  | .pasted b _ _ _ _ => b.width
  | .texted b _ _ _ => b.width

/-- Height of a PIL image (`img.height`, `img.size[1]`). -/
def PImage.height : PImage → ℤ
  | .new _ _ h _ => h
  | .opened _ h => h
  | .thumbnailed _ _ h => h
  | .alphaScaled s _ => s.height
  | .pasted b _ _ _ _ => b.height
  | .texted b _ _ _ => b.height

/-- Mode of a PIL image. Every image both scripts build is RGBA: `new` is
always called with `"RGBA"` and every open is followed by
`.convert("RGBA")`. -/
def PImage.mode : PImage → String
  | .new m _ _ _ => m
  | .opened _ _ => "RGBA"
  | .thumbnailed s _ _ => s.mode
  | .alphaScaled s _ => s.mode
  | .pasted b _ _ _ _ => b.mode
  | .texted b _ _ _ => b.mode

/-- The external PIL computations whose numeric outcomes the embedding
does not reproduce: the aspect-preserving size chosen by `thumbnail`
(from the source size and the bounds) and the text measurement
`draw.textbbox((0,0), text, font)` (from the text and the resolved
font). Theorems quantify over the backend, so they hold for every
measurement outcome. -/
structure Backend : Type where
  thumbDims : ℤ → ℤ → ℚ → ℚ → ℤ × ℤ
  textBBox : String → Option Bool → ℕ → ℤ × ℤ × ℤ × ℤ

/-- The errors a run of `add_watermark` can surface (each models the
Python exception raised at the corresponding line). -/
inductive WmErr : Type where
  /-- Call `fitz.open(input_pdf)` failed: unreadable input document. -/
  | sourceDocumentError : WmErr
  /-- Taking `min()` over the pages of a zero-page document (`ValueError:
  min() arg is an empty sequence`). -/
  | emptyDocMin : WmErr
  /-- Call to `hex_to_rgb` raised. -/
  | colorValueError (e : ColorErr) : WmErr
  /-- explicit font path that is not a file (`FileNotFoundError`). -/
  | fontNotFound : WmErr
  /-- Call `Image.open(watermark_image)` failed (path `None` or unreadable). -/
  | imageOpenError : WmErr
  /-- Call `doc.save(output_pdf)` failed (unwritable output path). -/
  | backendIOError : WmErr
  deriving DecidableEq

/-- The six-key metadata record (`doc.metadata` restricted to the keys
the code touches). -/
structure MetaRecord : Type where
  title : String
  author : String
  subject : String
  keywords : String
  creator : String
  producer : String
  deriving DecidableEq

/-- The six optional metadata overrides `add_watermark` receives
(`None` = absent). -/
structure MetaOverrides : Type where
  title : Option String
  author : Option String
  subject : Option String
  keywords : Option String
  creator : Option String
  producer : Option String
  deriving DecidableEq

/-- src/pdf-watermark.py lines 191-203: starting from the document's
current metadata, each of the six keys whose override `is not None` is
replaced; absent keys keep the prior entry. -/
def mergeMeta (prior : MetaRecord) (o : MetaOverrides) : MetaRecord where
  title := o.title.getD prior.title
  author := o.author.getD prior.author
  subject := o.subject.getD prior.subject
  keywords := o.keywords.getD prior.keywords
  creator := o.creator.getD prior.creator
  producer := o.producer.getD prior.producer

/-- A page of the open document: `page.rect.width` / `page.rect.height`. -/
structure Page : Type where
  width : ℚ
  height : ℚ
  deriving DecidableEq

/-- The calls the scripts make on the document backend and surrounding
system, in order. `insertImage`'s stream field carries the image whose
PNG encoding (`wm.save(bio, format="PNG")`, one `encodePNG` effect) is
the inserted byte buffer: equal fields mean the identical bytes. -/
inductive Eff : Type where
  /-- Call `wm.save(bio, format="PNG")` - the one PNG encoding. -/
  | encodePNG (im : PImage) : Eff
  /-- Call `page.insert_image(fitz.Rect(x0, y0, x1, y1), stream=..., overlay=...)`. -/
  | insertImage (x0 y0 x1 y1 : ℚ) (stream : PImage) (overlay : Bool) : Eff
  /-- Call `doc.set_metadata(meta)`. -/
  | setMeta (m : MetaRecord) : Eff
  /-- Call `doc.save(output_pdf)` succeeded: the output file now exists. -/
  | saveDoc : Eff
  /-- Call `doc.close()`. -/
  | closeDoc : Eff
  /-- the final confirmation `print` -/
  | printed : Eff
  deriving DecidableEq

/-- Is this effect a page-image insertion? -/
def isInsertEff : Eff → Bool
  | .insertImage _ _ _ _ _ _ => true
  | _ => false

/-- Is this effect the PNG encoding? -/
def isEncodeEff : Eff → Bool
  | .encodePNG _ => true
  | _ => false

/-- Is this effect the save of the output document? -/
def isSaveEff : Eff → Bool
  | .saveDoc => true
  | _ => false

/-- Python `min` over a nonempty sequence (`ValueError`, hence `none`,
on an empty one). -/
def minQ : List ℚ → Option ℚ
  | [] => none
  | x :: xs => some (xs.foldl min x)

/-- Python truthiness of an optional string argument: `None` and `""`
are falsy, everything else truthy. -/
def truthy : Option String → Bool
  | none => false
  | some s => !(s == "")

/-- Function `create_text_image` of src/pdf-watermark.py lines 17-60. The canvas
is `Image.new("RGBA", (int(max_width), int(max_height)), (255,255,255,0))`;
an explicit font path that is not a file raises `FileNotFoundError`
(`font_path = some false`; `some true` is an existing file, `none` the
falsy no-path case that falls back to the bundled or default font); the
measured text box centers the draw position; an enabled shadow is drawn
first at the offset position in black with alpha `int(255*shadow_opacity)`;
the main text is drawn at the centered position with alpha
`int(255*text_opacity)`. The Python default for `shadow_offset` is 5. -/
def create_text_image (B : Backend) (text : String) (max_width max_height : ℚ)
    (font_path : Option Bool) (font_size : ℕ) (text_color : ℤ × ℤ × ℤ)
    (text_opacity : ℚ) (shadow : Bool) (shadow_opacity : ℚ) (shadow_offset : ℤ) :
    Except WmErr PImage :=
  let canvas := PImage.new "RGBA" (pyInt max_width) (pyInt max_height) (255, 255, 255, 0)
  if font_path == some false then Except.error WmErr.fontNotFound
  else
    let bb := B.textBBox text font_path font_size
    let text_w := bb.2.2.1 - bb.1
    let text_h := bb.2.2.2 - bb.2.1
    let x : ℚ := (max_width - (text_w : ℚ)) / 2
    let y : ℚ := (max_height - (text_h : ℚ)) / 2
    let c1 := if shadow then
        PImage.texted canvas (x + (shadow_offset : ℚ)) (y + (shadow_offset : ℚ))
          (0, 0, 0, pyInt (255 * shadow_opacity))
      else canvas
    Except.ok (PImage.texted c1 x y
      (text_color.1, text_color.2.1, text_color.2.2, pyInt (255 * text_opacity)))

/-- src/pdf-watermark.py lines 167-172: the shadow step of the image
branch. With shadow enabled, a new canvas of size `(w+5, h+5)` filled
with `(0, 0, 0, int(255*shadow_opacity))`, onto which the working image
is pasted at `(5, 5)` with itself (its alpha channel) as the mask. -/
def applyImageShadow (wm : PImage) (shadow : Bool) (shadow_opacity : ℚ) : PImage :=
  if shadow then
    let off : ℤ := 5
    let sh := PImage.new "RGBA" (wm.width + off) (wm.height + off)
      (0, 0, 0, pyInt (255 * shadow_opacity))
    PImage.pasted sh wm off off wm
  else wm

/-- src/script.py lines 26-30: the same shadow step, except that the
canvas fill alpha is the integer `shadow_opacity` argument itself
(function default 10, CLI default 3), not `255 * shadow_opacity`. -/
def script_applyShadow (img : PImage) (shadow : Bool) (shadow_opacity : ℤ) : PImage :=
  if shadow then
    let shadow_offset : ℤ := 5
    PImage.pasted
      (PImage.new "RGBA" (img.width + shadow_offset) (img.height + shadow_offset)
        (0, 0, 0, shadow_opacity))
      img shadow_offset shadow_offset img
  else img

/-- The per-page stamping loop shared verbatim by src/pdf-watermark.py
lines 180-189 and src/script.py lines 37-47: for each page in document
order, `x = (page.rect.width - wm.width)/2`, `y = (page.rect.height -
wm.height)/2`, and an insertion of the shared PNG bytes into
`fitz.Rect(x, y, x+w, y+h)`. pdf-watermark.py passes `overlay=True`
explicitly; script.py omits the argument and gets PyMuPDF's documented
default `overlay=True`. -/
def stampTrace (pages : List Page) (wm : PImage) : List Eff :=
  pages.map (fun p =>
    let x := (p.width - (wm.width : ℚ)) / 2
    let y := (p.height - (wm.height : ℚ)) / 2
    Eff.insertImage x y (x + (wm.width : ℚ)) (y + (wm.height : ℚ)) wm true)

/-- src/pdf-watermark.py lines 174-208, after the raster is prepared:
encode the raster to PNG once, stamp every page with those bytes, set
the merged metadata, then save, close and print. A failing save
(`saveOk = false`) raises after the stamping and metadata calls, so the
close and print are skipped and no output file exists. -/
def stampPhase (pages : List Page) (wm : PImage) (meta : MetaRecord) (saveOk : Bool) :
    List Eff × Option WmErr :=
  let tr := Eff.encodePNG wm :: (stampTrace pages wm ++ [Eff.setMeta meta])
  if saveOk then (tr ++ [Eff.saveDoc, Eff.closeDoc, Eff.printed], none)
  else (tr, some WmErr.backendIOError)

/-- The keyword arguments of `add_watermark` in src/pdf-watermark.py
(lines 125-144). `watermark_image` is `some img` when `Image.open` of the
given path would succeed with raster `img`, `none` when the argument is
`None` or unreadable; `font_path` is as in `create_text_image`. The
Python defaults are: no image, no text, opacities 0.3, `shadow=True`,
no font path, size 36, color `"#000000"`, no metadata overrides. -/
structure AWArgs : Type where
  watermark_image : Option PImage
  watermark_text : Option String
  image_opacity : ℚ
  shadow_opacity : ℚ
  shadow : Bool
  font_path : Option Bool
  font_size : ℕ
  text_color : List Char
  text_opacity : ℚ
  title : Option String
  author : Option String
  subject : Option String
  keywords : Option String
  creator : Option String
  producer : Option String
  deriving DecidableEq

/-- The six metadata overrides of an argument record. -/
def overridesOf (a : AWArgs) : MetaOverrides :=
  ⟨a.title, a.author, a.subject, a.keywords, a.creator, a.producer⟩

/-- Lines 148-150 of src/pdf-watermark.py (and 15-16 of src/script.py):
the bounding box is 90 percent of the minimum page width and of the
minimum page height over all pages; on a zero-page document the `min()`
calls raise (`none`). -/
def bboxOf (pages : List Page) : Option (ℚ × ℚ) :=
  match minQ (pages.map Page.width), minQ (pages.map Page.height) with
  | some mnw, some mnh => some (mnw * (9 / 10), mnh * (9 / 10))
  | _, _ => none

/-- Function `add_watermark` of src/pdf-watermark.py lines 125-208, as the effect
trace it produces and its outcome. `docOpen` is the result of
`fitz.open(input_pdf)` (`none` = unreadable input), `prior` the
document's current metadata, `saveOk` whether the backend can write the
output path. In source order: open the document; take the min page width
and min page height (times 0.9) over all pages; if `watermark_text` is
truthy parse the color and rasterize the text, else open and fit the
watermark image, scale its alpha when `image_opacity < 1`, and apply the
optional shadow; then encode once, stamp every page, merge metadata,
save. -/
def add_watermark (B : Backend) (docOpen : Option (List Page)) (a : AWArgs)
    (prior : MetaRecord) (saveOk : Bool) : List Eff × Option WmErr :=
  match docOpen with
  | none => ([], some WmErr.sourceDocumentError)
  | some pages =>
    match bboxOf pages with
    | none => ([], some WmErr.emptyDocMin)
    | some (max_w, max_h) =>
      let wmRes : Except WmErr PImage :=
        if truthy a.watermark_text then
          match hex_to_rgb a.text_color with
          | Except.error e => Except.error (WmErr.colorValueError e)
          | Except.ok rgb =>
            create_text_image B (a.watermark_text.getD "") max_w max_h
              a.font_path a.font_size rgb a.text_opacity a.shadow a.shadow_opacity 5
        else
          match a.watermark_image with
          | none => Except.error WmErr.imageOpenError
          | some img0 =>
            let td := B.thumbDims img0.width img0.height max_w max_h
            let thumbed := PImage.thumbnailed img0 td.1 td.2
            let wm1 := if a.image_opacity < 1 then PImage.alphaScaled thumbed a.image_opacity
              else thumbed
            Except.ok (applyImageShadow wm1 a.shadow a.shadow_opacity)
      match wmRes with
      | Except.error e => ([], some e)
      | Except.ok wm => stampPhase pages wm (mergeMeta prior (overridesOf a)) saveOk

/-- The raster src/script.py builds (lines 12-30): open and fit the
image, scale its alpha when `image_opacity < 1`, apply the optional
shadow with the raw integer fill alpha. -/
def scriptRaster (B : Backend) (img0 : PImage) (max_w max_h : ℚ)
    (image_opacity : ℚ) (shadow : Bool) (shadow_opacity : ℤ) : PImage :=
  let td := B.thumbDims img0.width img0.height max_w max_h
  let thumbed := PImage.thumbnailed img0 td.1 td.2
  let img1 := if image_opacity < 1 then PImage.alphaScaled thumbed image_opacity else thumbed
  script_applyShadow img1 shadow shadow_opacity

/-- Function `add_watermark` of src/script.py lines 7-52. The image is opened
before the page minima are taken; there is no text branch and no
metadata handling; the loop and save mirror pdf-watermark.py. -/
def script_add_watermark (B : Backend) (docOpen : Option (List Page))
    (imgOpen : Option PImage) (image_opacity : ℚ) (shadow_opacity : ℤ)
    (shadow : Bool) (saveOk : Bool) : List Eff × Option WmErr :=
  match docOpen with
  | none => ([], some WmErr.sourceDocumentError)
  | some pages =>
    match imgOpen with
    | none => ([], some WmErr.imageOpenError)
    | some img0 =>
      match bboxOf pages with
      | none => ([], some WmErr.emptyDocMin)
      | some (max_w, max_h) =>
        let wm := scriptRaster B img0 max_w max_h image_opacity shadow shadow_opacity
        let tr := Eff.encodePNG wm :: stampTrace pages wm
        if saveOk then (tr ++ [Eff.saveDoc, Eff.closeDoc, Eff.printed], none)
        else (tr, some WmErr.backendIOError)

/-- What one run of the `__main__` block of src/pdf-watermark.py
(lines 276-305) does to the transient Markdown-rendered PDF.
`markdown` - was `--markdown` supplied; `renderOk` - does
`create_pdf_from_markdown` succeed; `wmOk` - does `add_watermark`
succeed. -/
structure MainResult : Type where
  /-- Call `tempfile.NamedTemporaryFile(suffix=".pdf", delete=False)` ran, so
  the transient file exists on disk. -/
  tempCreated : Bool
  /-- Call `os.remove(tmp_pdf)` ran. -/
  tempRemoved : Bool
  /-- Call to `add_watermark` was reached. -/
  ranWatermark : Bool
  /-- the invocation ended in an uncaught exception. -/
  failed : Bool
  deriving DecidableEq

/-- The `__main__` control flow of src/pdf-watermark.py lines 276-305:
with `--markdown`, the transient file is created and rendered *before*
the `try` block, and only the `finally` of the `try` around
`add_watermark` removes it; without `--markdown` no transient file
exists. -/
def mainRun (markdown renderOk wmOk : Bool) : MainResult :=
  if markdown then
    if renderOk then
      { tempCreated := true, tempRemoved := true, ranWatermark := true, failed := !wmOk }
    else
      { tempCreated := true, tempRemoved := false, ranWatermark := false, failed := true }
  else
    { tempCreated := false, tempRemoved := false, ranWatermark := true, failed := !wmOk }

/-- A concrete measurement backend for witnesses: every thumbnail fit
returns 100 by 50, every text measurement the box (0, 2, 40, 12). -/
def demoBackend : Backend :=
  ⟨fun _ _ _ _ => (100, 50), fun _ _ _ => (0, 2, 40, 12)⟩

/-- Concrete arguments for witnesses: the Python keyword defaults of
`add_watermark` with the watermark text "DRAFT". -/
def demoTextArgs : AWArgs :=
  ⟨none, some "DRAFT", 3/10, 3/10, true, none, 36, "#000000".data, 3/10,
    none, none, none, none, none, none⟩

/-- Concrete prior metadata for witnesses. -/
def demoMeta : MetaRecord :=
  ⟨"t0", "a0", "s0", "k0", "c0", "p0"⟩

/-- The raster `create_text_image` produces at the concrete witness
inputs (bounds 540 by 720, no explicit font, shadow on). -/
def demoTextRaster : PImage :=
  (create_text_image demoBackend "DRAFT" 540 720 none 36 (0, 0, 0) (3/10) true
    (3/10) 5).toOption.getD (PImage.opened 0 0)

/-- A hexadecimal digit is not whitespace, not a sign, not `#`, `_`,
`x` or `X`: helper facts for reducing the parser on digit slices. -/
theorem hex_beq_eq_false (c d : Char) (h : isHexDigit c = true)
    (hd : isHexDigit d = false) : (c == d) = false := by
  cases hcd : c == d with
  | true =>
    rw [eq_of_beq hcd] at h
    rw [h] at hd
    cases hd
  | false => rfl

/-- A hexadecimal digit is not one of the whitespace characters
`int(str, base)` strips. -/
theorem isPySpace_eq_false_of_hex (c : Char) (h : isHexDigit c = true) :
    isPySpace c = false := by
  simp only [isPySpace]
  rw [hex_beq_eq_false c ' ' h (by decide), hex_beq_eq_false c '\t' h (by decide),
    hex_beq_eq_false c '\n' h (by decide), hex_beq_eq_false c '\r' h (by decide),
    hex_beq_eq_false c '\x0b' h (by decide), hex_beq_eq_false c '\x0c' h (by decide)]
  rfl

/-- Python `int(_, 16)` on a two-hexadecimal-digit slice is the
two-digit base-16 value. -/
theorem pyIntHex_two_hex (c d : Char) (hc : isHexDigit c = true)
    (hd : isHexDigit d = true) :
    pyIntHex [c, d] = some ((16 * hexDigitVal c + hexDigitVal d : ℕ) : ℤ) := by
  have hcs := isPySpace_eq_false_of_hex c hc
  have hds := isPySpace_eq_false_of_hex d hd
  have hcp := hex_beq_eq_false c '+' hc (by decide)
  have hcm := hex_beq_eq_false c '-' hc (by decide)
  have hdx := hex_beq_eq_false d 'x' hd (by decide)
  have hdX := hex_beq_eq_false d 'X' hd (by decide)
  have hdu := hex_beq_eq_false d '_' hd (by decide)
  simp [pyIntHex, stripPy, List.dropWhile, hcs, hds, hcp, hcm, pyIntHexCore, hdx, hdX,
    hexDigitsParse, hc, hd, hexTailGo, hdu]

/-- C4: for every string of exactly six hexadecimal digits, optionally
preceded by one leading `#`, `hex_to_rgb` returns the triple of the
three consecutive 2-digit hexadecimal byte values (characters 0-2, 2-4
and 4-6); in particular `hex_to_rgb "#FF8000" = (255, 128, 0)` (the
witness instantiates this). -/
theorem hex_to_rgb_valid_six_digits (pre : Bool) (c0 c1 c2 c3 c4 c5 : Char)
    (h0 : isHexDigit c0 = true) (h1 : isHexDigit c1 = true)
    (h2 : isHexDigit c2 = true) (h3 : isHexDigit c3 = true)
    (h4 : isHexDigit c4 = true) (h5 : isHexDigit c5 = true) :
    hex_to_rgb ((if pre then ['#'] else []) ++ [c0, c1, c2, c3, c4, c5]) =
      Except.ok (((16 * hexDigitVal c0 + hexDigitVal c1 : ℕ) : ℤ),
        ((16 * hexDigitVal c2 + hexDigitVal c3 : ℕ) : ℤ),
        ((16 * hexDigitVal c4 + hexDigitVal c5 : ℕ) : ℤ)) := by
  have l0 := hex_beq_eq_false c0 '#' h0 (by decide)
  cases pre <;>
    simp [hex_to_rgb, lstripHash, List.dropWhile, l0,
      pyIntHex_two_hex c0 c1 h0 h1, pyIntHex_two_hex c2 c3 h2 h3,
      pyIntHex_two_hex c4 c5 h4 h5]

/-- C4 witness: `hex_to_rgb "#FF8000"` is `(255, 128, 0)`. -/
theorem hex_to_rgb_ff8000_instance :
    hex_to_rgb "#FF8000".data = Except.ok (255, 128, 0) :=
  (hex_to_rgb_valid_six_digits true 'F' 'F' '8' '0' '0' '0' (by decide) (by decide)
    (by decide) (by decide) (by decide) (by decide)).trans (by rfl)

/-- C5 (amended): `hex_to_rgb` fails with the explicit
`InvalidColorFormat` error exactly when the remainder after stripping
every leading `#` does not have length six. Length-six remainders are
handed to Python `int(_, 16)` slice by slice, which also accepts a sign
or whitespace adjacent to a single hexadecimal digit, so such strings
return a triple instead of failing (counterexample below); when a slice
is rejected the error is `int`'s own `ValueError`, not
`InvalidColorFormat`. -/
theorem hex_to_rgb_invalid_format_iff_length (s : List Char) :
    hex_to_rgb s = Except.error ColorErr.invalidColorFormat ↔
      (lstripHash s).length ≠ 6 := by
  unfold hex_to_rgb
  by_cases h : (lstripHash s).length ≠ 6
  · simp [h]
  · simp only [h, iff_false, if_neg]
    rcases pyIntHex ((lstripHash s).take 2) with _ | r <;>
      rcases pyIntHex (((lstripHash s).drop 2).take 2) with _ | g <;>
        rcases pyIntHex (((lstripHash s).drop 4).take 2) with _ | b <;>
          simp

/-- C5 witness: a stripped remainder of length five fails with
`InvalidColorFormat`. -/
theorem hex_to_rgb_short_instance :
    hex_to_rgb "12345".data = Except.error ColorErr.invalidColorFormat :=
  (hex_to_rgb_invalid_format_iff_length "12345".data).mpr (by decide)

/-- C5 counterexample: `"+12345"` is six characters containing a sign
(not six hexadecimal digits), yet `hex_to_rgb` returns the triple
`(1, 35, 69)` - `int("+1", 16)`, `int("23", 16)`, `int("45", 16)` -
instead of failing. -/
theorem hex_to_rgb_sign_accepted_cex :
    hex_to_rgb "+12345".data = Except.ok (1, 35, 69) ∧ isHexDigit '+' = false :=
  ⟨by rfl, by rfl⟩

/-- The stamping loop produces insertions only. -/
theorem stampTrace_filter_insert (pages : List Page) (wm : PImage) :
    (stampTrace pages wm).filter isInsertEff = stampTrace pages wm := by
  simp [stampTrace, isInsertEff]

/-- The stamping loop performs no PNG encoding. -/
theorem stampTrace_filter_encode (pages : List Page) (wm : PImage) :
    (stampTrace pages wm).filter isEncodeEff = [] := by
  simp [stampTrace, isEncodeEff]

/-- The stamping loop performs no save. -/
theorem stampTrace_filter_save (pages : List Page) (wm : PImage) :
    (stampTrace pages wm).filter isSaveEff = [] := by
  simp [stampTrace, isSaveEff]

/-- One insertion per page. -/
theorem stampTrace_length (pages : List Page) (wm : PImage) :
    (stampTrace pages wm).length = pages.length := by
  simp [stampTrace]

/-- C1: the stamping loop emits one insertion per page, in document
order; the insertion for page `i` centers the raster with that page's
own width and height, `x = (page.width - raster.width)/2` and
`y = (page.height - raster.height)/2`, into the rectangle
`[x, y, x + w, y + h]`, carrying the same stream (the encoded PNG of
the one shared raster) and `overlay = true` on every page; and in the
stamping phase the PNG encoding happens exactly once, at the head of
the trace, before every insertion. -/
theorem stamp_loop_in_order_shared_bytes (pages : List Page) (wm : PImage)
    (meta : MetaRecord) (saveOk : Bool) :
    (stampTrace pages wm).length = pages.length
    ∧ (∀ (i : ℕ) (p : Page), pages[i]? = some p →
        (stampTrace pages wm)[i]? = some (Eff.insertImage
          ((p.width - (wm.width : ℚ)) / 2) ((p.height - (wm.height : ℚ)) / 2)
          ((p.width - (wm.width : ℚ)) / 2 + (wm.width : ℚ))
          ((p.height - (wm.height : ℚ)) / 2 + (wm.height : ℚ)) wm true))
    ∧ (stampPhase pages wm meta saveOk).1.head? = some (Eff.encodePNG wm)
    ∧ (stampPhase pages wm meta saveOk).1.filter isEncodeEff = [Eff.encodePNG wm]
    ∧ (stampPhase pages wm meta saveOk).1.filter isInsertEff = stampTrace pages wm := by
  refine ⟨stampTrace_length pages wm, ?_, ?_, ?_, ?_⟩
  · intro i p hp
    simp [stampTrace, List.getElem?_map, hp]
  · cases saveOk <;> simp [stampPhase]
  · cases saveOk <;>
      simp [stampPhase, isEncodeEff, isInsertEff, isSaveEff, List.filter_append,
        stampTrace_filter_encode]
  · cases saveOk <;>
      simp [stampPhase, isEncodeEff, isInsertEff, isSaveEff, List.filter_append,
        stampTrace_filter_insert]

/-- C1 witness: on a two-page document with pages 600 by 800 and 400 by
600 and a 100 by 50 raster, the second insertion is centered on the
second page's own rectangle and carries the shared raster bytes with
overlay. -/
theorem stamp_loop_two_page_instance :
    (stampTrace [Page.mk 600 800, Page.mk 400 600] (PImage.opened 100 50))[1]? =
      some (Eff.insertImage 150 275 250 325 (PImage.opened 100 50) true) := by
  have h := ((stamp_loop_in_order_shared_bytes [Page.mk 600 800, Page.mk 400 600]
    (PImage.opened 100 50) demoMeta true).2.1) 1 (Page.mk 400 600) (by rfl)
  rw [h]
  norm_num [PImage.width, PImage.height]

/-- C3 (amended): with shadow enabled the image-variant raster is the
new `(w+5, h+5)` canvas - offset 5 in both scripts - filled with black,
onto which the working image is pasted at `(5, 5)` with its own alpha
as the paste mask, so both raster dimensions exceed the unshadowed
raster's by exactly 5. The fill alpha differs between the two scripts:
`int(255 * shadow_opacity)` in src/pdf-watermark.py, but the raw
integer `shadow_opacity` argument in src/script.py (counterexample
below). -/
theorem image_shadow_canvas_growth :
    (∀ (wm : PImage) (s : ℚ),
      applyImageShadow wm true s =
        PImage.pasted (PImage.new "RGBA" (wm.width + 5) (wm.height + 5)
          (0, 0, 0, pyInt (255 * s))) wm 5 5 wm
      ∧ (applyImageShadow wm true s).width = (applyImageShadow wm false s).width + 5
      ∧ (applyImageShadow wm true s).height = (applyImageShadow wm false s).height + 5)
    ∧ (∀ (img : PImage) (s : ℤ),
      script_applyShadow img true s =
        PImage.pasted (PImage.new "RGBA" (img.width + 5) (img.height + 5)
          (0, 0, 0, s)) img 5 5 img
      ∧ (script_applyShadow img true s).width = (script_applyShadow img false s).width + 5
      ∧ (script_applyShadow img true s).height
          = (script_applyShadow img false s).height + 5) := by
  constructor
  · intro wm s
    exact ⟨rfl, by simp [applyImageShadow, PImage.width], by simp [applyImageShadow, PImage.height]⟩
  · intro img s
    exact ⟨rfl, by simp [script_applyShadow, PImage.width], by simp [script_applyShadow, PImage.height]⟩

/-- C3 counterexample: in src/script.py, at the function's own default
`shadow_opacity = 10`, the shadow canvas fill is `(0, 0, 0, 10)` - the
raw argument - although the claim prescribes alpha `255 *
shadow_opacity = 2550`. -/
theorem script_shadow_raw_alpha_cex :
    script_applyShadow (PImage.opened 200 100) true 10 =
      PImage.pasted (PImage.new "RGBA" 205 105 (0, 0, 0, 10))
        (PImage.opened 200 100) 5 5 (PImage.opened 200 100)
    ∧ (10 : ℤ) ≠ 255 * 10 :=
  ⟨by rfl, by decide⟩

/-- C6 (amended): given the prepared raster, the stamping phase of a
document with at least one page never fails with a successful save and
inserts the watermark on every page; but a zero-page document is not a
no-op: `add_watermark` fails at the bounding-box computation - `min()`
over the empty page sequence raises - before any per-page work. -/
theorem stamp_total_nonempty_empty_doc_errors :
    (∀ (pages : List Page) (wm : PImage) (meta : MetaRecord),
      pages ≠ [] →
        (stampPhase pages wm meta true).2 = none
        ∧ ((stampPhase pages wm meta true).1.filter isInsertEff).length = pages.length)
    ∧ (∀ (B : Backend) (a : AWArgs) (prior : MetaRecord) (saveOk : Bool),
        add_watermark B (some []) a prior saveOk = ([], some WmErr.emptyDocMin)) := by
  constructor
  · intro pages wm meta _
    constructor
    · simp [stampPhase]
    · simp [stampPhase, List.filter_append, isInsertEff, isEncodeEff,
        stampTrace_filter_insert, stampTrace_length]
  · intro B a prior saveOk
    rfl

/-- C6 counterexample: on a zero-page document the watermarking
operation is not a completing no-op - it fails at the `min()` over the
empty page sequence. -/
theorem add_watermark_empty_doc_cex :
    add_watermark demoBackend (some []) demoTextArgs demoMeta true
      = ([], some WmErr.emptyDocMin) := by
  rfl

/-- C7: the metadata merge is sparse: with only `title` present the
other five keys keep their prior values and `title` becomes exactly the
override; in general every absent key is left untouched (the merged
value is the prior one) and every present key - including an empty
string - replaces the prior value. -/
theorem mergeMeta_sparse (prior : MetaRecord) (t : String) (o : MetaOverrides) :
    mergeMeta prior ⟨some t, none, none, none, none, none⟩ = { prior with title := t }
    ∧ (mergeMeta prior o).title = o.title.getD prior.title
    ∧ (mergeMeta prior o).author = o.author.getD prior.author
    ∧ (mergeMeta prior o).subject = o.subject.getD prior.subject
    ∧ (mergeMeta prior o).keywords = o.keywords.getD prior.keywords
    ∧ (mergeMeta prior o).creator = o.creator.getD prior.creator
    ∧ (mergeMeta prior o).producer = o.producer.getD prior.producer
    ∧ (∀ v : String, (mergeMeta prior { o with title := some v }).title = v) :=
  ⟨rfl, rfl, rfl, rfl, rfl, rfl, rfl, fun _ => rfl⟩

/-- C8 (amended): the transient Markdown-rendered PDF is deleted on
success and on a later watermarking failure (the `finally` around
`add_watermark`), but it is *not* deleted when the rendering step
itself fails, because rendering runs before the `try` block; without
Markdown input no transient file exists. -/
theorem mainRun_temp_cleanup_paths :
    (∀ wmOk : Bool, (mainRun true true wmOk).tempCreated = true
      ∧ (mainRun true true wmOk).tempRemoved = true)
    ∧ (∀ wmOk : Bool, (mainRun true false wmOk).tempCreated = true
      ∧ (mainRun true false wmOk).tempRemoved = false
      ∧ (mainRun true false wmOk).failed = true)
    ∧ (∀ renderOk wmOk : Bool, (mainRun false renderOk wmOk).tempCreated = false) :=
  ⟨fun _ => ⟨rfl, rfl⟩, fun _ => ⟨rfl, rfl, rfl⟩, fun _ _ => rfl⟩

/-- C8 counterexample: when the Markdown-to-PDF rendering step itself
fails, the already-created transient file is never removed. -/
theorem mainRun_render_failure_cex :
    (mainRun true false true).tempCreated = true
    ∧ (mainRun true false true).tempRemoved = false :=
  ⟨rfl, rfl⟩

/-- C2 (amended): for every text watermark and every bounding box
`(W, H)`, the raster the text rasterizer returns is an RGBA image whose
dimensions are exactly `(int(W), int(H))` - the Python `int` truncation
of the bounds, equal to `(W, H)` whenever the bounds are whole - and
these dimensions are independent of the measured glyph extent (the
backend `B` carries the measurement) and of the shadow flag: the canvas
is neither shrunk to the text nor enlarged by the shadow. -/
theorem create_text_image_dims (B : Backend) (text : String) (W H : ℚ)
    (fp : Option Bool) (fs : ℕ) (col : ℤ × ℤ × ℤ) (topa : ℚ) (sh : Bool)
    (shopa : ℚ) (off : ℤ) (im : PImage)
    (h : create_text_image B text W H fp fs col topa sh shopa off = Except.ok im) :
    im.mode = "RGBA" ∧ im.width = pyInt W ∧ im.height = pyInt H := by
  unfold create_text_image at h
  cases hf : (fp == some false) with
  | true => rw [hf] at h; cases h
  | false =>
    rw [hf] at h
    simp only [Bool.false_eq_true, if_false, Except.ok.injEq] at h
    subst h
    cases sh <;> simp [PImage.mode, PImage.width, PImage.height]

/-- C2 witness: at bounds 540 by 720 (whole numbers) with shadow
enabled, the returned raster is RGBA of exactly 540 by 720. -/
theorem create_text_image_dims_instance :
    create_text_image demoBackend "DRAFT" 540 720 none 36 (0, 0, 0) (3/10) true
        (3/10) 5 = Except.ok demoTextRaster
    ∧ demoTextRaster.mode = "RGBA"
    ∧ demoTextRaster.width = pyInt 540 ∧ demoTextRaster.height = pyInt 720 :=
  ⟨rfl, create_text_image_dims demoBackend "DRAFT" 540 720 none 36 (0, 0, 0) (3/10)
    true (3/10) 5 demoTextRaster rfl⟩

/-- C2 counterexample: fractional bounds are truncated - with
`max_width = 3/2` the canvas width is `int(3/2) = 1`, not `3/2`, so the
raster dimensions do not equal the bounding box exactly. -/
theorem create_text_image_truncates_cex :
    (create_text_image demoBackend "AB" (3/2) 2 none 36 (0, 0, 0) (3/10) false
        (3/10) 5).map PImage.width = Except.ok 1
    ∧ ((1 : ℚ) ≠ 3/2) := by
  constructor
  · have h : pyInt (3/2) = 1 := by norm_num [pyInt]; decide
    simp [create_text_image, Except.map, PImage.width, h]
  · norm_num

/-- Every branch of `add_watermark` either succeeds having emitted
exactly the one save of the output path, or fails having emitted none. -/
theorem add_watermark_save_cases (B : Backend) (docOpen : Option (List Page))
    (a : AWArgs) (prior : MetaRecord) (saveOk : Bool) :
    ((add_watermark B docOpen a prior saveOk).2 = none
      ∧ (add_watermark B docOpen a prior saveOk).1.filter isSaveEff = [Eff.saveDoc])
    ∨ ((add_watermark B docOpen a prior saveOk).2.isSome
      ∧ (add_watermark B docOpen a prior saveOk).1.filter isSaveEff = []) := by
  cases docOpen with
  | none => right; exact ⟨rfl, rfl⟩
  | some pages =>
    cases hb : bboxOf pages with
    | none => right; simp [add_watermark, hb]
    | some mwh =>
      obtain ⟨max_w, max_h⟩ := mwh
      simp only [add_watermark, hb, stampPhase]
      split
      · right; simp
      · cases saveOk <;>
          simp [List.filter_append, isSaveEff, stampTrace_filter_save]

/-- C9: either the full pipeline completes and exactly one output file
is written (one save effect), or the invocation fails - unreadable
input, empty document, bad color format, missing font file, unreadable
watermark image, or a failing save - and no output file is written:
every failure leaves the trace without a save effect. -/
theorem add_watermark_no_partial_output (B : Backend) (docOpen : Option (List Page))
    (a : AWArgs) (prior : MetaRecord) (saveOk : Bool) :
    ((add_watermark B docOpen a prior saveOk).2.isSome →
      (add_watermark B docOpen a prior saveOk).1.filter isSaveEff = [])
    ∧ ((add_watermark B docOpen a prior saveOk).2 = none →
      ((add_watermark B docOpen a prior saveOk).1.filter isSaveEff).length = 1) := by
  rcases add_watermark_save_cases B docOpen a prior saveOk with ⟨h1, h2⟩ | ⟨h1, h2⟩
  · constructor
    · intro hs; rw [h1] at hs; cases hs
    · intro _; rw [h2]; rfl
  · constructor
    · intro _; exact h2
    · intro hn; rw [hn] at h1; cases h1

/-- C10: at the level of `add_watermark` (below the CLI), a truthy
watermark text makes the run independent of the image argument - the
text variant takes precedence and the image is silently ignored, with
no configuration error - while an empty-string watermark text sends the
run down the image branch even with no image supplied, where the
`Image.open(None)` call fails. -/
theorem watermark_text_precedence (B : Backend) (docOpen : Option (List Page))
    (a : AWArgs) (prior : MetaRecord) (saveOk : Bool) (s : String)
    (i1 i2 : Option PImage) (pages : List Page)
    (hs : s ≠ "") (hp : pages ≠ []) :
    add_watermark B docOpen
        { a with watermark_text := some s, watermark_image := i1 } prior saveOk
      = add_watermark B docOpen
        { a with watermark_text := some s, watermark_image := i2 } prior saveOk
    ∧ add_watermark B (some pages)
        { a with watermark_text := some "", watermark_image := none } prior saveOk
      = ([], some WmErr.imageOpenError) := by
  have ht : truthy (some s) = true := by simp [truthy, hs]
  constructor
  · cases docOpen with
    | none => rfl
    | some pages2 =>
      cases hb : bboxOf pages2 with
      | none => simp [add_watermark, hb]
      | some mwh =>
        obtain ⟨max_w, max_h⟩ := mwh
        simp [add_watermark, hb, ht, overridesOf]
  · match pages, hp with
    | p :: ps, _ =>
      simp [add_watermark, bboxOf, minQ, truthy]

/-- C10 witness: with text "DRAFT" the run ignores whether an image
argument is present; with text "" and no image the run fails at the
image open. -/
theorem watermark_text_precedence_instance :
    add_watermark demoBackend (some [Page.mk 600 800])
        { demoTextArgs with watermark_text := some "DRAFT", watermark_image := none }
        demoMeta true
      = add_watermark demoBackend (some [Page.mk 600 800])
        { demoTextArgs with
          watermark_text := some "DRAFT"
          watermark_image := some (PImage.opened 200 100) } demoMeta true
    ∧ add_watermark demoBackend (some [Page.mk 600 800])
        { demoTextArgs with watermark_text := some "", watermark_image := none }
        demoMeta true
      = ([], some WmErr.imageOpenError) :=
  watermark_text_precedence demoBackend (some [Page.mk 600 800]) demoTextArgs demoMeta
    true "DRAFT" none (some (PImage.opened 200 100)) [Page.mk 600 800]
    (by decide) (by decide)

end PdfWatermarking
